import Mathlib

/-!
Verification of the content-based book recommendation scorer of
`Book_recommendation/backend/books/views.py` (`recommended_books`, lines 170-276),
against the repository's specification.

Embedding notes:
* Python floats are modelled as exact rationals (`ℚ`); all arithmetic performed by
  the scorer (decimal weights, division by 5 and 100, Jaccard ratios) is exact
  decimal arithmetic in the spec, so `ℚ` is the intended semantics.
* Nullable model fields are `Option`-valued.  Per `books/models.py`, `Book.rating`
  and `Book.liked_percentage` are non-nullable `FloatField(default=0.0)` and
  `author`/`language` are non-nullable `CharField`s, but the view code defends
  against `None` everywhere (`b.rating or 0.0`, `(b.language or '')`), so the
  embedding keeps them optional and mirrors those guards.
* A Djongo `JSONField` genre list may contain non-string junk; the view keeps only
  `isinstance(g, str)` members.  `GEntry` models "a JSON list member that is a
  string, or anything else".
* Python's `sorted`/`list.sort` with `reverse=True` is a stable descending sort:
  elements are ordered by strictly decreasing key, ties keep list order.  A
  stable sort's output is uniquely determined by the key order and the input
  order, so any stable implementation is extensionally the same function; the
  embedding uses a structurally recursive stable insertion sort (`sortDesc`),
  which inserts each element (taken from the front of the list) before the
  first already-placed element of less-or-equal key: strictly greater keys stay
  ahead of it, and tied elements - which all come from later list positions -
  end up behind it, exactly the stable descending order.
* `str.strip`/`str.lower` are modelled structurally on the character list
  (`pyStrip`, `pyToLower`); they agree with Python on ASCII data, which is the
  only data the language fields hold.
* `sorted` tie-break key `getattr(t[1], 'rating', 0.0)` yields the row's rating;
  ratings are non-nullable floats in the model, embedded as `Option.getD 0`.
-/

namespace BookRec

/-- A member of a book's JSON `genres` list: either a string or malformed junk. -/
inductive GEntry where
  | str (s : String)
  | junk
deriving DecidableEq

/-- A catalog row, after `books/models.py` `Book` (only the fields the recommender
reads).  `id` is the primary key. -/
structure Book where
  id : Nat
  author : Option String
  rating : Option ℚ
  liked_percentage : Option ℚ
  genres : Option (List GEntry)
  language : Option String
deriving DecidableEq

/-- The per-user persisted signals the view reads: `user.favorite_genres` (a genre
name set), `user.preferred_language`, `user.saved_book_ids` (a JSON list). -/
structure UserRec where
  favorite_genres : Finset String
  preferred_language : Option String
  saved_book_ids : Option (List Nat)

/-- Source: `saved_ids = set(user.saved_book_ids or [])` (views.py line 197). -/
def savedIds (u : UserRec) : Finset Nat :=
  (u.saved_book_ids.getD []).toFinset

/-- The string members of a JSON genre list
(`[g for g in (x or []) if isinstance(g, str)]`). -/
def strGenres (gs : Option (List GEntry)) : List String :=
  (gs.getD []).filterMap fun g =>
    match g with
    | GEntry.str s => some s
    | GEntry.junk => none

/-- Source: `set([g for g in (b.genres or []) if isinstance(g, str)])` (views.py line 228). -/
def bookGenres (b : Book) : Finset String :=
  (strGenres b.genres).toFinset

/-- Source: `saved_books_list = list(Book.objects.filter(id__in=saved_ids)) if saved_ids
else []` (views.py line 198), modelled as a catalog filter. -/
def savedBooksList (u : UserRec) (catalog : List Book) : List Book :=
  if savedIds u ≠ ∅ then catalog.filter (fun b => b.id ∈ savedIds u) else []

/-- Source: `saved_authors = set(b.author for b in saved_books_list if getattr(b, 'author',
None))` (views.py line 199): the truthiness test keeps authors that are present and
non-empty. -/
def savedAuthors (l : List Book) : Finset String :=
  (l.filterMap fun b =>
    match b.author with
    | some a => if a = "" then none else some a
    | none => none).toFinset

/-- Source: `saved_genres_union`: union of the string genres of the saved books
(views.py lines 200-207). -/
def savedGenresUnion (l : List Book) : Finset String :=
  (l.flatMap fun b => strGenres b.genres).toFinset

/-- The `jaccard` helper (views.py lines 211-216): 0.0 when both sets are empty,
else `len(inter)/len(union) if union else 0.0`. -/
def jaccard (a b : Finset String) : ℚ :=
  if a = ∅ ∧ b = ∅ then 0
  else
    let inter := a ∩ b
    let union := a ∪ b
    if union = ∅ then 0 else (inter.card : ℚ) / (union.card : ℚ)

/-- The `clamp01` helper (views.py lines 218-219):
`0.0 if x is None else max(0.0, min(1.0, float(x)))`. -/
def clamp01 (x : Option ℚ) : ℚ :=
  match x with
  | none => 0
  | some v => max 0 (min 1 v)

/-- Python whitespace for `str.strip()`: space, tab, newline, carriage return,
vertical tab, form feed. -/
def pyIsSpace (c : Char) : Bool :=
  c = ' ' ∨ c = '\t' ∨ c = '\n' ∨ c = '\r' ∨ c = '\x0b' ∨ c = '\x0c'

/-- Source: `str.strip()`: drop leading and trailing whitespace. -/
def pyStrip (s : String) : String :=
  String.mk (((s.data.dropWhile pyIsSpace).reverse.dropWhile pyIsSpace).reverse)

/-- Source: `str.lower()` (ASCII case mapping, which covers the language fields). -/
def pyToLower (s : String) : String :=
  String.mk (s.data.map Char.toLower)

/-- Source: `(user.preferred_language or '').strip().lower()` (views.py line 195). -/
def normLanguage (s : Option String) : String :=
  pyToLower (pyStrip (s.getD ""))

/-- Sub-score: `jaccard(favorite_genres, b_genres) if favorite_genres else 0.0`
(views.py line 233). -/
def fav_genre_sim (favorite_genres b_genres : Finset String) : ℚ :=
  if favorite_genres ≠ ∅ then jaccard favorite_genres b_genres else 0

/-- Sub-score: `jaccard(saved_genres_union, b_genres) if saved_genres_union else
0.0` (views.py line 234). -/
def saved_genre_sim (saved_genres_union b_genres : Finset String) : ℚ :=
  if saved_genres_union ≠ ∅ then jaccard saved_genres_union b_genres else 0

/-- Sub-score: `1.0 if (b.author and b.author in saved_authors) else 0.0`
(views.py line 235). -/
def author_match (saved_authors : Finset String) (b : Book) : ℚ :=
  match b.author with
  | some a => if a ≠ "" ∧ a ∈ saved_authors then 1 else 0
  | none => 0

/-- Sub-score: `clamp01((b.rating or 0.0) / 5.0)` (views.py line 236). -/
def rating_norm (b : Book) : ℚ :=
  clamp01 (some ((b.rating.getD 0) / 5))

/-- Sub-score: `clamp01((b.liked_percentage or 0.0) / 100.0)` (views.py line 237). -/
def liked_norm (b : Book) : ℚ :=
  clamp01 (some ((b.liked_percentage.getD 0) / 100))

/-- Sub-score: `1.0 if (preferred_language and (b.language or
'').strip().lower() == preferred_language) else 0.0` (views.py line 238). -/
def lang_match (preferred_language : String) (b : Book) : ℚ :=
  if preferred_language ≠ "" ∧ normLanguage b.language = preferred_language
  then 1 else 0

/-- The weighted blend (views.py lines 241-248). -/
def scoreBook (favorite_genres saved_genres_union saved_authors : Finset String)
    (preferred_language : String) (b : Book) : ℚ :=
  0.40 * fav_genre_sim favorite_genres (bookGenres b) +
  0.20 * saved_genre_sim saved_genres_union (bookGenres b) +
  0.15 * author_match saved_authors b +
  0.15 * rating_norm b +
  0.05 * liked_norm b +
  0.05 * lang_match preferred_language b

/-- Source: `(b.rating or 0.0)` as a sort key component. -/
def ratingKey (b : Book) : ℚ := b.rating.getD 0

/-- Source: `(b.liked_percentage or 0.0)` as a sort key component. -/
def likedKey (b : Book) : ℚ := b.liked_percentage.getD 0

/-- Lexicographic ≤ on pairs of rationals (Python tuple comparison). -/
def pairLe (x y : ℚ × ℚ) : Bool :=
  decide (x.1 < y.1 ∨ (x.1 = y.1 ∧ x.2 ≤ y.2))

/-- Insert `a` into an already stably-descending-sorted list: `a` goes before the
first element whose key is ≤ `key a`.  Strictly greater keys stay ahead of `a`;
tied elements (which come from later input positions) end up behind `a`. -/
def insertDesc {α : Type} (key : α → ℚ × ℚ) (a : α) : List α → List α
  | [] => [a]
  | b :: bs =>
    if pairLe (key b) (key a) then a :: b :: bs else b :: insertDesc key a bs

/-- Stable descending sort by `key`: the semantics of Python's
`sorted(l, key=key, reverse=True)` (a stable sort's output is determined by the
key order together with the input order, so any stable implementation computes
this same function). -/
def sortDesc {α : Type} (key : α → ℚ × ℚ) : List α → List α
  | [] => []
  | a :: as => insertDesc key a (sortDesc key as)

/-- Stable descending sort by `((b.rating or 0.0), (b.liked_percentage or 0.0))`,
i.e. `sorted(l, key=lambda b: ((b.rating or 0.0), (b.liked_percentage or 0.0)),
reverse=True)` (views.py lines 253-257 and 268-272). -/
def fallbackSort (l : List Book) : List Book :=
  sortDesc (fun b => (ratingKey b, likedKey b)) l

/-- Stable descending sort of `(score, book)` pairs by
`(t[0], getattr(t[1], 'rating', 0.0))` (views.py line 261).  `Book.rating` is a
non-nullable float per `books/models.py`, so the `getattr` default collapses to
the row's rating, embedded as `Option.getD 0`. -/
def scoredSort (l : List (ℚ × Book)) : List (ℚ × Book) :=
  sortDesc (fun t => (t.1, ratingKey t.2)) l

/-- Source: `limit = max(1, min(limit, 24))` (views.py line 191): the server-side clamp of
the raw integer limit into [1, 24]. -/
def clampLimit (raw : Int) : Nat :=
  (max 1 (min raw 24)).toNat

/-- Source: `int(s)` for a query-string value: strip whitespace, optional sign, decimal
digits; `none` models the `(TypeError, ValueError)` branch. -/
def parsePyInt (s : String) : Option Int :=
  let cs := (pyStrip s).data
  let digitsVal : List Char → Option Nat := fun ds =>
    if ds = [] ∨ ¬ ds.all Char.isDigit then none
    else some (ds.foldl (fun acc c => acc * 10 + (c.toNat - 48)) 0)
  match cs with
  | [] => none
  | c :: rest =>
    if c = '+' then (digitsVal rest).map Int.ofNat
    else if c = '-' then (digitsVal rest).map fun n => -(n : Int)
    else (digitsVal cs).map Int.ofNat

/-- Lines 186-190: `limit = int(request.GET.get('limit', 4))`, falling back to 4
on `TypeError`/`ValueError`; `none` is an absent query parameter. -/
def parseLimitParam (p : Option String) : Int :=
  match p with
  | none => 4
  | some s =>
    match parsePyInt s with
    | some n => n
    | none => 4

/-- The effective page size: parse then clamp (views.py lines 186-191). -/
def effectiveLimit (p : Option String) : Nat :=
  clampLimit (parseLimitParam p)

/-- The full per-candidate score of `b` for user `u`, with the secondary signals
(`saved_authors`, `saved_genres_union`, normalized language) derived from the
catalog exactly as in views.py lines 193-207. -/
def userScore (u : UserRec) (catalog : List Book) (b : Book) : ℚ :=
  scoreBook u.favorite_genres (savedGenresUnion (savedBooksList u catalog))
    (savedAuthors (savedBooksList u catalog)) (normLanguage u.preferred_language) b

/-- Source: `candidates = list(Book.objects.exclude(id__in=saved_ids))` (views.py lines
222-223): the catalog rows whose id is not saved, in table order. -/
def candidatesOf (u : UserRec) (catalog : List Book) : List Book :=
  catalog.filter fun b => b.id ∉ savedIds u

/-- The `scored` list of `(score, book)` pairs (views.py lines 225-249). -/
def scoredOf (u : UserRec) (catalog : List Book) : List (ℚ × Book) :=
  (candidatesOf u catalog).map fun b => (userScore u catalog b, b)

/-- Source: `scored.sort(...); books = [b for _, b in scored[:limit]]` (views.py lines
260-263). -/
def booksOf (u : UserRec) (catalog : List Book) (limit : Nat) : List Book :=
  ((scoredSort (scoredOf u catalog)).take limit).map Prod.snd

/-- Source: `filler_candidates = list(Book.objects.exclude(id__in=saved_ids.union({bk.id
for bk in books})))` (views.py line 267). -/
def fillerCandidates (u : UserRec) (catalog : List Book) (books : List Book) :
    List Book :=
  catalog.filter fun b => ¬ (b.id ∈ savedIds u ∨ b.id ∈ books.map Book.id)

/-- The core of `recommended_books` (views.py lines 193-274), from the gathered
user signals to the ordered list of returned books, with the raw (pre-clamp)
integer limit as input.  `catalog` stands for the book table.  The function is
pure: repeated calls on the same user signal and catalog snapshot return the
identical list. -/
def recommend (u : UserRec) (catalog : List Book) (rawLimit : Int) : List Book :=
  let limit := clampLimit rawLimit
  if u.favorite_genres = ∅ ∧ savedIds u = ∅ then
    (fallbackSort (candidatesOf u catalog)).take limit
  else
    let books := booksOf u catalog limit
    if books.length < limit then
      books ++ (fallbackSort (fillerCandidates u catalog books)).take
        (limit - books.length)
    else books

/-- Source: `recommend` with the `if len(books) < limit` backfill block (views.py lines
265-274) deleted; used to state that the backfill never contributes. -/
def recommendNoBackfill (u : UserRec) (catalog : List Book) (rawLimit : Int) :
    List Book :=
  let limit := clampLimit rawLimit
  if u.favorite_genres = ∅ ∧ savedIds u = ∅ then
    (fallbackSort (candidatesOf u catalog)).take limit
  else
    booksOf u catalog limit

/-- The whole endpoint body on the limit-handling side: raw query parameter in,
ordered book list out (views.py lines 186-274). -/
def recommended_books (u : UserRec) (catalog : List Book)
    (limitParam : Option String) : List Book :=
  recommend u catalog (parseLimitParam limitParam)

/-! ### Helper lemmas -/

theorem insertDesc_perm {α : Type} (key : α → ℚ × ℚ) (a : α) (l : List α) :
    (insertDesc key a l).Perm (a :: l) := by
  induction l with
  | nil => exact List.Perm.refl _
  | cons b bs ih =>
    simp only [insertDesc]
    split
    · exact List.Perm.refl _
    · exact (ih.cons b).trans (List.Perm.swap a b bs)

theorem sortDesc_perm {α : Type} (key : α → ℚ × ℚ) (l : List α) :
    (sortDesc key l).Perm l := by
  induction l with
  | nil => exact List.Perm.refl _
  | cons a as ih => exact (insertDesc_perm key a (sortDesc key as)).trans (ih.cons a)

theorem sortDesc_length {α : Type} (key : α → ℚ × ℚ) (l : List α) :
    (sortDesc key l).length = l.length :=
  (sortDesc_perm key l).length_eq

theorem sortDesc_mem {α : Type} (key : α → ℚ × ℚ) (l : List α) (x : α) :
    x ∈ sortDesc key l ↔ x ∈ l :=
  (sortDesc_perm key l).mem_iff

theorem scoredOf_map_snd (u : UserRec) (catalog : List Book) :
    (scoredOf u catalog).map Prod.snd = candidatesOf u catalog := by
  simp [scoredOf, List.map_map, Function.comp_def]

theorem booksOf_length (u : UserRec) (catalog : List Book) (limit : Nat) :
    (booksOf u catalog limit).length = min limit (candidatesOf u catalog).length := by
  have h1 : (scoredSort (scoredOf u catalog)).length = (candidatesOf u catalog).length := by
    have := sortDesc_length (fun t : ℚ × Book => (t.1, ratingKey t.2)) (scoredOf u catalog)
    simpa [scoredSort, scoredOf] using this
  simp [booksOf, List.length_take, h1]

theorem booksOf_subset (u : UserRec) (catalog : List Book) (limit : Nat) :
    ∀ b ∈ booksOf u catalog limit, b ∈ candidatesOf u catalog := by
  intro b hb
  simp only [booksOf, List.mem_map] at hb
  obtain ⟨t, ht, rfl⟩ := hb
  have h1 : t ∈ scoredSort (scoredOf u catalog) :=
    (List.take_sublist _ _).mem ht
  have h2 : t ∈ scoredOf u catalog := by
    simp only [scoredSort] at h1
    exact (sortDesc_mem _ _ t).mp h1
  have h3 : t.2 ∈ (scoredOf u catalog).map Prod.snd := List.mem_map_of_mem Prod.snd h2
  rwa [scoredOf_map_snd] at h3

theorem mem_candidatesOf (u : UserRec) (catalog : List Book) (b : Book) :
    b ∈ candidatesOf u catalog ↔ b ∈ catalog ∧ b.id ∉ savedIds u := by
  simp [candidatesOf]

/-- When fewer than `limit` books were selected, the selected books are exactly a
permutation of the candidate list: the `[:limit]` slice already took everything. -/
theorem booksOf_perm_of_short (u : UserRec) (catalog : List Book) (limit : Nat)
    (h : (booksOf u catalog limit).length < limit) :
    (booksOf u catalog limit).Perm (candidatesOf u catalog) := by
  have hlen := booksOf_length u catalog limit
  have hc : (candidatesOf u catalog).length < limit := by omega
  have hs : (scoredSort (scoredOf u catalog)).length ≤ limit := by
    have h1 := sortDesc_length (fun t : ℚ × Book => (t.1, ratingKey t.2)) (scoredOf u catalog)
    have h2 : (scoredOf u catalog).length = (candidatesOf u catalog).length := by
      simp [scoredOf]
    simp only [scoredSort]
    omega
  have htake : (scoredSort (scoredOf u catalog)).take limit = scoredSort (scoredOf u catalog) :=
    List.take_of_length_le hs
  have hperm : (scoredSort (scoredOf u catalog)).Perm (scoredOf u catalog) :=
    sortDesc_perm _ _
  have hp2 := hperm.map Prod.snd
  rw [scoredOf_map_snd] at hp2
  rw [booksOf, htake]
  exact hp2

/-- Every non-saved catalog row is already among the selected books when the
selection came up short, so the backfill candidate query is empty. -/
theorem fillerCandidates_nil (u : UserRec) (catalog : List Book) (limit : Nat)
    (h : (booksOf u catalog limit).length < limit) :
    fillerCandidates u catalog (booksOf u catalog limit) = [] := by
  rw [fillerCandidates, List.filter_eq_nil_iff]
  intro b hb
  simp only [decide_eq_true_eq, Decidable.not_not]
  by_cases hsave : b.id ∈ savedIds u
  · exact Or.inl hsave
  · right
    have hbc : b ∈ candidatesOf u catalog := (mem_candidatesOf u catalog b).mpr ⟨hb, hsave⟩
    have hbb : b ∈ booksOf u catalog limit :=
      ((booksOf_perm_of_short u catalog limit h).mem_iff).mpr hbc
    exact List.mem_map_of_mem Book.id hbb

theorem nodup_map_take {α β : Type} (f : α → β) {l l2 : List α} (n : Nat)
    (hp : l.Perm l2) (h : (l2.map f).Nodup) : ((l.take n).map f).Nodup := by
  have h1 : (l.map f).Nodup := ((hp.map f).nodup_iff).mpr h
  exact (List.Sublist.map f (List.take_sublist n l)).nodup h1

/-- Shared workhorse: the backfill block is a no-op, so `recommend` agrees with
the version that lacks it. -/
theorem recommend_eq_simple (u : UserRec) (catalog : List Book) (rawLimit : Int) :
    recommend u catalog rawLimit = recommendNoBackfill u catalog rawLimit := by
  simp only [recommend, recommendNoBackfill]
  split
  · rfl
  · split
    · rename_i hshort
      rw [fillerCandidates_nil u catalog _ hshort]
      simp [fallbackSort, sortDesc]
    · rfl

theorem candidatesOf_sublist (u : UserRec) (catalog : List Book) :
    (candidatesOf u catalog).Sublist catalog := by
  simp only [candidatesOf]
  exact List.filter_sublist catalog

theorem candidatesOf_ids_nodup (u : UserRec) (catalog : List Book)
    (h : (catalog.map Book.id).Nodup) :
    ((candidatesOf u catalog).map Book.id).Nodup :=
  (List.Sublist.map Book.id (candidatesOf_sublist u catalog)).nodup h

theorem booksOf_ids_nodup (u : UserRec) (catalog : List Book) (limit : Nat)
    (h : (catalog.map Book.id).Nodup) :
    ((booksOf u catalog limit).map Book.id).Nodup := by
  have hperm : (scoredSort (scoredOf u catalog)).Perm (scoredOf u catalog) := by
    simp only [scoredSort]
    exact sortDesc_perm _ _
  have hids : ((scoredOf u catalog).map fun t : ℚ × Book => t.2.id).Nodup := by
    have := candidatesOf_ids_nodup u catalog h
    simpa [scoredOf, List.map_map, Function.comp_def] using this
  have := nodup_map_take (fun t : ℚ × Book => t.2.id) limit hperm hids
  simpa [booksOf, List.map_map, Function.comp_def] using this

theorem fallback_take_ids_nodup (u : UserRec) (catalog : List Book) (limit : Nat)
    (h : (catalog.map Book.id).Nodup) :
    (((fallbackSort (candidatesOf u catalog)).take limit).map Book.id).Nodup := by
  have hperm : (fallbackSort (candidatesOf u catalog)).Perm (candidatesOf u catalog) := by
    simp only [fallbackSort]
    exact sortDesc_perm _ _
  exact nodup_map_take Book.id limit hperm (candidatesOf_ids_nodup u catalog h)

theorem jaccard_nonneg (a b : Finset String) : 0 ≤ jaccard a b := by
  simp only [jaccard]
  split
  · exact le_refl 0
  · split
    · exact le_refl 0
    · positivity

theorem jaccard_le_one (a b : Finset String) : jaccard a b ≤ 1 := by
  simp only [jaccard]
  split
  · norm_num
  · split
    · norm_num
    · rename_i h hu
      have hpos : 0 < ((a ∪ b).card : ℚ) := by
        have hne : (a ∪ b).Nonempty := Finset.nonempty_iff_ne_empty.mpr hu
        exact_mod_cast Finset.card_pos.mpr hne
      rw [div_le_one hpos]
      exact_mod_cast Finset.card_le_card Finset.inter_subset_union

theorem fav_genre_sim_bounds (fav g : Finset String) :
    0 ≤ fav_genre_sim fav g ∧ fav_genre_sim fav g ≤ 1 := by
  simp only [fav_genre_sim]
  split
  · exact ⟨jaccard_nonneg _ _, jaccard_le_one _ _⟩
  · norm_num

theorem saved_genre_sim_bounds (sgu g : Finset String) :
    0 ≤ saved_genre_sim sgu g ∧ saved_genre_sim sgu g ≤ 1 := by
  simp only [saved_genre_sim]
  split
  · exact ⟨jaccard_nonneg _ _, jaccard_le_one _ _⟩
  · norm_num

theorem author_match_bounds (sa : Finset String) (b : Book) :
    0 ≤ author_match sa b ∧ author_match sa b ≤ 1 := by
  rcases hA : b.author with _ | a <;> simp only [author_match, hA]
  · norm_num
  · split <;> norm_num

theorem clamp01_bounds (x : Option ℚ) : 0 ≤ clamp01 x ∧ clamp01 x ≤ 1 := by
  cases x with
  | none => simp [clamp01]
  | some v =>
    simp only [clamp01]
    exact ⟨le_max_left _ _, max_le (by norm_num) (min_le_left _ _)⟩

theorem lang_match_bounds (lang : String) (b : Book) :
    0 ≤ lang_match lang b ∧ lang_match lang b ≤ 1 := by
  simp only [lang_match]
  split <;> norm_num

/-! ### Concrete fixtures (spec section 8, property 7, and witnesses) -/

/-- Spec scenario book 1: `{id:1, genres:["Fantasy"], rating:4.0,
liked_percentage:90, language:"English"}`. -/
def cBook1 : Book :=
  { id := 1, author := none, rating := some 4, liked_percentage := some 90,
    genres := some [GEntry.str "Fantasy"], language := some "English" }

/-- Spec scenario book 2: `{id:2, genres:["Romance"], rating:5.0,
liked_percentage:95, language:"English"}`. -/
def cBook2 : Book :=
  { id := 2, author := none, rating := some 5, liked_percentage := some 95,
    genres := some [GEntry.str "Romance"], language := some "English" }

/-- Spec scenario user: favorites `{"Fantasy"}`, no saved books, preferred
language `"English"`. -/
def cUser : UserRec :=
  { favorite_genres := {"Fantasy"}, preferred_language := some "English",
    saved_book_ids := some [] }

def cCatalog : List Book := [cBook1, cBook2]

/-- A user with no signal at all (cold start). -/
def coldUser : UserRec :=
  { favorite_genres := ∅, preferred_language := none, saved_book_ids := none }

def w6Book1 : Book :=
  { id := 11, author := some "A", rating := some 3, liked_percentage := some 50,
    genres := some [GEntry.str "Fantasy"], language := some "English" }

def w6Book2 : Book :=
  { id := 12, author := some "B", rating := some 2, liked_percentage := some 60,
    genres := some [GEntry.str "Horror"], language := some "Tamil" }

def w6Book3 : Book :=
  { id := 13, author := none, rating := none, liked_percentage := none,
    genres := none, language := none }

def w6Catalog : List Book := [w6Book1, w6Book2, w6Book3]

/-! ### Claims -/

/-- C1: for every user signal and catalog, no book id in `saved_ids` appears in
the output of the recommendation operation, on any path (scored ranking,
cold-start fallback, or backfill), at any score. -/
theorem C1_saved_exclusion (u : UserRec) (catalog : List Book) (rawLimit : Int)
    (b : Book) (hb : b ∈ recommend u catalog rawLimit) : b.id ∉ savedIds u := by
  rw [recommend_eq_simple] at hb
  simp only [recommendNoBackfill] at hb
  split at hb
  · have h1 : b ∈ fallbackSort (candidatesOf u catalog) :=
      (List.take_sublist _ _).mem hb
    have h2 : b ∈ candidatesOf u catalog := by
      simp only [fallbackSort] at h1
      exact (sortDesc_mem _ _ b).mp h1
    exact ((mem_candidatesOf u catalog b).mp h2).2
  · exact ((mem_candidatesOf u catalog b).mp (booksOf_subset u catalog _ b hb)).2

theorem C1_saved_exclusion_witness : (cBook1).id ∉ savedIds cUser :=
  C1_saved_exclusion cUser cCatalog 4 cBook1 (by with_unfolding_all decide)

/-- C2 as stated is false: `"100"` is a numeric but out-of-range limit, and the
code clamps it to 24 instead of coercing it to the default 4. -/
theorem C2_counterexample :
    parsePyInt "100" = some 100 ∧ ¬((1 : Int) ≤ 100 ∧ (100 : Int) ≤ 24) ∧
    effectiveLimit (some "100") = 24 ∧ effectiveLimit (some "100") ≠ 4 := by
  with_unfolding_all decide

/-- C2 (amended): the effective limit is an integer defaulting to 4 and
server-clamped to the inclusive range [1, 24]; a missing or non-numeric caller
limit silently coerces to the default 4, while an out-of-range numeric limit is
clamped to the nearest bound (not reset to the default); for every
caller-supplied limit value the operation produces a valid limit and never
errors. -/
theorem C2_limit_amended :
    (∀ p : Option String, 1 ≤ effectiveLimit p ∧ effectiveLimit p ≤ 24) ∧
    effectiveLimit none = 4 ∧
    (∀ s : String, parsePyInt s = none → effectiveLimit (some s) = 4) ∧
    (∀ (s : String) (n : Int), parsePyInt s = some n →
      effectiveLimit (some s) = clampLimit n) := by
  refine ⟨?_, by with_unfolding_all decide, ?_, ?_⟩
  · intro p
    simp only [effectiveLimit, clampLimit]
    have h1 : (1 : Int) ≤ max 1 (min (parseLimitParam p) 24) := le_max_left _ _
    have h2 : max 1 (min (parseLimitParam p) 24) ≤ 24 :=
      max_le (by norm_num) (min_le_right _ _)
    omega
  · intro s h
    simp only [effectiveLimit, parseLimitParam, h]
    with_unfolding_all decide
  · intro s n h
    simp only [effectiveLimit, parseLimitParam, h]

theorem C2_limit_amended_witness :
    (1 ≤ effectiveLimit (some "100") ∧ effectiveLimit (some "100") ≤ 24) ∧
    effectiveLimit (some "abc") = 4 ∧
    effectiveLimit (some "7") = clampLimit 7 :=
  ⟨C2_limit_amended.1 (some "100"),
   C2_limit_amended.2.2.1 "abc" (by with_unfolding_all decide),
   C2_limit_amended.2.2.2 "7" 7 (by with_unfolding_all decide)⟩

/-- C3: on the spec's concrete scenario (favorites `{"Fantasy"}`, no saved
books, preferred language `"English"`, two-book catalog), the scorer assigns
book 1 the score 0.615 and book 2 the score 0.2475, and the endpoint (with the
default limit) returns exactly the ids `[1, 2]` in that order. -/
theorem C3_concrete_scenario :
    userScore cUser cCatalog cBook1 = 0.615 ∧
    userScore cUser cCatalog cBook2 = 0.2475 ∧
    (recommended_books cUser cCatalog none).map Book.id = [1, 2] := by
  with_unfolding_all decide

/-- C4: with no favorite genres and no saved ids (cold start), the output is
the whole catalog stably sorted by `(rating, liked_percentage)` descending and
truncated to the effective limit.  `recommend` is a pure function, so the order
is reproduced identically on every call with the same inputs. -/
theorem C4_cold_start (u : UserRec) (catalog : List Book) (rawLimit : Int)
    (h1 : u.favorite_genres = ∅) (h2 : savedIds u = ∅) :
    recommend u catalog rawLimit =
      (fallbackSort catalog).take (clampLimit rawLimit) := by
  have hcand : candidatesOf u catalog = catalog := by
    simp [candidatesOf, h2]
  simp only [recommend]
  rw [if_pos ⟨h1, h2⟩, hcand]

theorem C4_cold_start_witness :
    recommend coldUser cCatalog 4 = (fallbackSort cCatalog).take (clampLimit 4) :=
  C4_cold_start coldUser cCatalog 4 (by with_unfolding_all decide)
    (by with_unfolding_all decide)

/-- C5: the output length never exceeds the clamped limit, and never exceeds the
number of catalog entries whose id is not saved (a catalog smaller than the
limit yields a shorter result; the total function never errors). -/
theorem C5_length_bound (u : UserRec) (catalog : List Book) (rawLimit : Int) :
    (recommend u catalog rawLimit).length ≤ clampLimit rawLimit ∧
    (recommend u catalog rawLimit).length ≤
      (catalog.filter fun b => b.id ∉ savedIds u).length := by
  have hcand : (catalog.filter fun b => b.id ∉ savedIds u) = candidatesOf u catalog := rfl
  rw [recommend_eq_simple, hcand]
  simp only [recommendNoBackfill]
  split
  · have hlf : (fallbackSort (candidatesOf u catalog)).length =
        (candidatesOf u catalog).length := by
      simp only [fallbackSort]
      exact sortDesc_length _ _
    rw [List.length_take, hlf]
    exact ⟨Nat.min_le_left _ _, Nat.min_le_right _ _⟩
  · rw [booksOf_length]
    exact ⟨Nat.min_le_left _ _, Nat.min_le_right _ _⟩

/-- C6: with some preference signal, a catalog holding exactly 3 non-saved books
and limit 10, the output has exactly 3 entries, all drawn from the catalog (no
padding) and with pairwise distinct ids (catalog ids are primary keys, hence the
`Nodup` hypothesis); the function is total, so no error is possible. -/
theorem C6_small_catalog (u : UserRec) (catalog : List Book)
    (hsig : u.favorite_genres ≠ ∅ ∨ savedIds u ≠ ∅)
    (hlen : (candidatesOf u catalog).length = 3)
    (hids : (catalog.map Book.id).Nodup) :
    (recommend u catalog 10).length = 3 ∧
    ((recommend u catalog 10).map Book.id).Nodup ∧
    ∀ b ∈ recommend u catalog 10, b ∈ catalog := by
  have hcold : ¬(u.favorite_genres = ∅ ∧ savedIds u = ∅) := by
    rcases hsig with h | h
    · exact fun hc => h hc.1
    · exact fun hc => h hc.2
  have heq : recommend u catalog 10 = booksOf u catalog (clampLimit 10) := by
    rw [recommend_eq_simple]
    simp only [recommendNoBackfill]
    rw [if_neg hcold]
  refine ⟨?_, ?_, ?_⟩
  · rw [heq, booksOf_length, hlen]
    with_unfolding_all decide
  · rw [heq]
    exact booksOf_ids_nodup u catalog _ hids
  · intro b hb
    rw [heq] at hb
    exact ((mem_candidatesOf u catalog b).mp (booksOf_subset u catalog _ b hb)).1

theorem C6_small_catalog_witness :
    (recommend cUser w6Catalog 10).length = 3 ∧
    ((recommend cUser w6Catalog 10).map Book.id).Nodup :=
  ⟨(C6_small_catalog cUser w6Catalog (Or.inl (by with_unfolding_all decide))
      (by with_unfolding_all decide) (by with_unfolding_all decide)).1,
   (C6_small_catalog cUser w6Catalog (Or.inl (by with_unfolding_all decide))
      (by with_unfolding_all decide) (by with_unfolding_all decide)).2.1⟩

/-- C7: the `jaccard` helper returns 0.0 (not 1.0, not a division-by-zero) on
two empty sets and |A∩B|/|A∪B| on every other pair; consequently the favorite-
genre sub-score is 0 for a user with no favorite genres and the saved-genre
sub-score is 0 for a user with no saved books. -/
theorem C7_jaccard_spec :
    jaccard ∅ ∅ = 0 ∧
    (∀ a b : Finset String, ¬(a = ∅ ∧ b = ∅) →
      jaccard a b = ((a ∩ b).card : ℚ) / ((a ∪ b).card : ℚ)) ∧
    (∀ g : Finset String, fav_genre_sim ∅ g = 0) ∧
    (∀ (u : UserRec) (catalog : List Book) (g : Finset String), savedIds u = ∅ →
      saved_genre_sim (savedGenresUnion (savedBooksList u catalog)) g = 0) := by
  refine ⟨by simp [jaccard], ?_, ?_, ?_⟩
  · intro a b h
    have hu : a ∪ b ≠ ∅ := fun hab => h (Finset.union_eq_empty.mp hab)
    simp [jaccard, h, hu]
  · intro g
    simp [fav_genre_sim]
  · intro u catalog g h
    have hl : savedBooksList u catalog = [] := by
      simp [savedBooksList, h]
    simp [saved_genre_sim, hl, savedGenresUnion]

theorem C7_jaccard_spec_witness :
    jaccard {"Fantasy"} ∅ =
      ((({"Fantasy"} : Finset String) ∩ ∅).card : ℚ) /
        ((({"Fantasy"} : Finset String) ∪ ∅).card : ℚ) ∧
    saved_genre_sim (savedGenresUnion (savedBooksList cUser cCatalog))
      {"Fantasy"} = 0 :=
  ⟨C7_jaccard_spec.2.1 {"Fantasy"} ∅ (by with_unfolding_all decide),
   C7_jaccard_spec.2.2.2 cUser cCatalog {"Fantasy"} (by with_unfolding_all decide)⟩

/-- C8: the backfill branch never adds a book — the scored candidate list
already contains every non-saved catalog entry, so whenever fewer than `limit`
books were selected the filler query is empty and `recommend` is extensionally
equal to the same operation with the backfill block removed. -/
theorem C8_backfill_noop (u : UserRec) (catalog : List Book) (rawLimit : Int) :
    recommend u catalog rawLimit = recommendNoBackfill u catalog rawLimit :=
  recommend_eq_simple u catalog rawLimit

/-- C9: for a catalog with pairwise distinct ids (primary keys), the output
contains no duplicate book id on any path. -/
theorem C9_no_duplicate_ids (u : UserRec) (catalog : List Book) (rawLimit : Int)
    (h : (catalog.map Book.id).Nodup) :
    ((recommend u catalog rawLimit).map Book.id).Nodup := by
  rw [recommend_eq_simple]
  simp only [recommendNoBackfill]
  split
  · exact fallback_take_ids_nodup u catalog _ h
  · exact booksOf_ids_nodup u catalog _ h

theorem C9_no_duplicate_ids_witness :
    ((recommend cUser cCatalog 4).map Book.id).Nodup :=
  C9_no_duplicate_ids cUser cCatalog 4 (by with_unfolding_all decide)

/-- C10: each of the six sub-scores lies in [0, 1] — for every book, including
null or out-of-range ratings and liked percentages — and therefore the blended
final score lies in [0, 1]. -/
theorem C10_score_bounds (fav sgu sa : Finset String) (lang : String) (b : Book) :
    (0 ≤ fav_genre_sim fav (bookGenres b) ∧ fav_genre_sim fav (bookGenres b) ≤ 1) ∧
    (0 ≤ saved_genre_sim sgu (bookGenres b) ∧ saved_genre_sim sgu (bookGenres b) ≤ 1) ∧
    (0 ≤ author_match sa b ∧ author_match sa b ≤ 1) ∧
    (0 ≤ rating_norm b ∧ rating_norm b ≤ 1) ∧
    (0 ≤ liked_norm b ∧ liked_norm b ≤ 1) ∧
    (0 ≤ lang_match lang b ∧ lang_match lang b ≤ 1) ∧
    (0 ≤ scoreBook fav sgu sa lang b ∧ scoreBook fav sgu sa lang b ≤ 1) := by
  obtain ⟨h1a, h1b⟩ := fav_genre_sim_bounds fav (bookGenres b)
  obtain ⟨h2a, h2b⟩ := saved_genre_sim_bounds sgu (bookGenres b)
  obtain ⟨h3a, h3b⟩ := author_match_bounds sa b
  obtain ⟨h4a, h4b⟩ := clamp01_bounds (some ((b.rating.getD 0) / 5))
  obtain ⟨h5a, h5b⟩ := clamp01_bounds (some ((b.liked_percentage.getD 0) / 100))
  obtain ⟨h6a, h6b⟩ := lang_match_bounds lang b
  have h4a2 : 0 ≤ rating_norm b := h4a
  have h4b2 : rating_norm b ≤ 1 := h4b
  have h5a2 : 0 ≤ liked_norm b := h5a
  have h5b2 : liked_norm b ≤ 1 := h5b
  refine ⟨⟨h1a, h1b⟩, ⟨h2a, h2b⟩, ⟨h3a, h3b⟩, ⟨h4a2, h4b2⟩, ⟨h5a2, h5b2⟩,
    ⟨h6a, h6b⟩, ?_, ?_⟩
  · simp only [scoreBook]
    linarith
  · simp only [scoreBook]
    linarith

end BookRec
